import Mathlib

/-!
Verification of the wallet/transaction front-end utilities of this repository.

The development shallowly embeds the pure parts of the code base:

* `src/utils/formatters.ts` — address shortening, address/hash shape
  validation and decimal amount parsing;
* `src/lib/utils/errors.ts` — the error classifier `parseWeb3Error`;
* `src/hooks/web3/useWallet.ts` — the `disconnect` and `switchNetwork`
  operations of the wallet-session accessor;
* `src/store/walletStore.ts` — the persisted `LastConnected` store;
* `src/hooks/web3/useGasPrice.ts` — the `useGasPrices` estimates;
* `src/hooks/web3/useContractWrite.ts` — the toast-notification traces of the
  transaction-lifecycle hooks `useContractWrite` and `useSendTransaction`.

JavaScript strings are modelled through their character lists; every string
helper used by the code (`includes`, `toLowerCase`, `slice`, the regexes) is
given an executable Lean counterpart defined over `String.data`.
-/

/-! ## String helpers modelling the JavaScript primitives -/

/-- Model of JavaScript `s.includes(pat)` on character lists: `pat` occurs as a
contiguous substring of `s`. -/
def containsSub (s pat : List Char) : Bool :=
  match s with
  | [] => pat.isEmpty
  | _ :: t => pat.isPrefixOf s || containsSub t pat

/-- Model of JavaScript `s.includes(pat)` on strings. -/
def strContains (s pat : String) : Bool :=
  containsSub s.data pat.data

/-- Model of JavaScript `s.toLowerCase()` (ASCII case mapping, which is all the
code relies on). -/
def jsToLower (s : String) : String :=
  String.mk (s.data.map Char.toLower)

/-- Model of JavaScript `s.slice(0, n)` for `n ≥ 0`: the first `n` characters. -/
def jsSliceFirst (s : String) (n : Nat) : String :=
  String.mk (s.data.take n)

/-- Model of JavaScript `s.slice(-n)`: the last `n` characters when `n > 0`
(clamped to the whole string when `n` exceeds the length), and the whole
string when `n = 0` (JavaScript treats `-0` as `0`). -/
def jsSliceLast (s : String) (n : Nat) : String :=
  if n = 0 then s else String.mk (s.data.drop (s.data.length - n))

/-! ## Basic lemmas about the string helpers -/

theorem isPrefixOf_eq_true_iff (p s : List Char) :
    p.isPrefixOf s = true ↔ ∃ t, s = p ++ t := by
  induction p generalizing s with
  | nil => simp [List.isPrefixOf]
  | cons c p ih =>
    cases s with
    | nil => simp [List.isPrefixOf]
    | cons d s =>
      simp only [List.isPrefixOf, Bool.and_eq_true, beq_iff_eq, ih, List.cons_append,
        List.cons.injEq]
      constructor
      · rintro ⟨rfl, t, rfl⟩
        exact ⟨t, rfl, rfl⟩
      · rintro ⟨t, rfl, rfl⟩
        exact ⟨rfl, t, rfl⟩

theorem containsSub_iff (s pat : List Char) :
    containsSub s pat = true ↔ ∃ a b, s = a ++ pat ++ b := by
  induction s with
  | nil =>
    simp only [containsSub, List.isEmpty_iff]
    constructor
    · rintro rfl
      exact ⟨[], [], rfl⟩
    · rintro ⟨a, b, h⟩
      rcases List.append_eq_nil.mp (List.append_eq_nil.mp h.symm).1 with ⟨-, h2⟩
      exact h2
  | cons c t ih =>
    simp only [containsSub, Bool.or_eq_true, isPrefixOf_eq_true_iff, ih]
    constructor
    · rintro (⟨b, hb⟩ | ⟨a, b, hab⟩)
      · exact ⟨[], b, by simpa using hb⟩
      · exact ⟨c :: a, b, by simp [hab]⟩
    · rintro ⟨a, b, hab⟩
      cases a with
      | nil => exact Or.inl ⟨b, by simpa using hab⟩
      | cons a0 a =>
        right
        refine ⟨a, b, ?_⟩
        have := (List.cons.injEq .. ▸ hab).2
        simpa using this

theorem containsSub_map (f : Char → Char) {s pat : List Char}
    (h : containsSub s pat = true) :
    containsSub (s.map f) (pat.map f) = true := by
  rcases (containsSub_iff s pat).mp h with ⟨a, b, rfl⟩
  exact (containsSub_iff _ _).mpr ⟨a.map f, b.map f, by simp⟩

theorem containsSub_of_append {s pat₁ pat₂ : List Char}
    (h : containsSub s (pat₁ ++ pat₂) = true) :
    containsSub s pat₁ = true := by
  rcases (containsSub_iff s _).mp h with ⟨a, b, rfl⟩
  exact (containsSub_iff _ _).mpr ⟨a, pat₂ ++ b, by simp⟩

/-! ## Formatting utilities (`src/utils/formatters.ts`) -/

/-- Embedding of `formatAddress` (src/utils/formatters.ts lines 17-25):
`if (!address) return ''` (which also catches the empty string),
`if (address.length < startChars + endChars) return address`, otherwise
`address.slice(0, startChars) + '...' + address.slice(-endChars)`. -/
def formatAddress (address : Option String) (startChars endChars : Nat) : String :=
  match address with
  | none => ""
  | some a =>
    if a.length = 0 then ""
    else if a.length < startChars + endChars then a
    else jsSliceFirst a startChars ++ "..." ++ jsSliceLast a endChars

/-- Character class of the regexes `[a-fA-F0-9]` used by `isValidAddress` and
`isValidTxHash` in src/utils/formatters.ts. -/
def isHexDigitJS (c : Char) : Bool :=
  ( '0' ≤ c && c ≤ '9' ) || ( 'a' ≤ c && c ≤ 'f' ) || ( 'A' ≤ c && c ≤ 'F' )

/-- Embedding of `isValidAddress` (src/utils/formatters.ts lines 170-172):
the anchored regex `^0x[a-fA-F0-9]{40}$`. -/
def isValidAddress (s : String) : Bool :=
  match s.data with
  | c0 :: c1 :: rest => c0 == '0' && c1 == 'x' && rest.length == 40 && rest.all isHexDigitJS
  | _ => false

/-- Decimal digit class `[0-9]`. -/
def isDigitChar (c : Char) : Bool :=
  '0' ≤ c && c ≤ '9'

/-- Value of a list of decimal digit characters, most significant first. -/
def digitsToNat (l : List Char) : Nat :=
  l.foldl (fun acc c => acc * 10 + (c.toNat - 48)) 0

/-- Modelled from the spec: the amount conversion performed by the chain-client
library's `parseUnits` (the viem dependency, outside this repository). Per the
spec it converts a decimal string to an integer count of base units given a
decimals exponent and fails on strings that do not parse. The model accepts an
optional leading sign, a run of decimal digits, and an optional dot followed by
decimal digits (the shape accepted by the library's validation regex
`^(-?)([0-9]*)\.?([0-9]*)$`), scales by `10 ^ decimals`, and truncates
fractional digits beyond the exponent; every other string is a parse failure. -/
def parseUnits (value : String) (decimals : Nat) : Except String Int :=
  let l := value.data
  let signSplit : Bool × List Char :=
    match l with
    | '-' :: t => (true, t)
    | _ => (false, l)
  let neg := signSplit.1
  let l1 := signSplit.2
  let intDigits := l1.takeWhile isDigitChar
  let rest := l1.dropWhile isDigitChar
  let fracDigits : Option (List Char) :=
    match rest with
    | [] => some []
    | '.' :: r => if r.all isDigitChar then some r else none
    | _ => none
  match fracDigits with
  | none => Except.error "invalid decimal number"
  | some frac =>
    let fracUsed := frac.take decimals ++ List.replicate (decimals - frac.length) '0'
    let magnitude := digitsToNat intDigits * 10 ^ decimals + digitsToNat fracUsed
    Except.ok (if neg then -(magnitude : Int) else (magnitude : Int))

/-- Embedding of `parseTokenAmount` (src/utils/formatters.ts lines 157-163):
`try { return parseUnits(value, decimals) } catch { return 0n }`. -/
def parseTokenAmount (value : String) (decimals : Nat) : Int :=
  match parseUnits value decimals with
  | Except.ok v => v
  | Except.error _ => 0

/-! ## Error classifier (`src/lib/utils/errors.ts`) -/

/-- The input of `parseWeb3Error(error: unknown)`, abstracted to the four cases
the code distinguishes: a falsy value (`!error`), a plain string
(`typeof error === 'string'`), an `Error` instance carrying a message
(`error instanceof Error`), and any other value. -/
inductive ErrValue where
  | nullish : ErrValue
  | str (s : String) : ErrValue
  | err (message : String) : ErrValue
  | other : ErrValue
deriving DecidableEq

/-- Model of `message.match(/reason="([^"]+)"/)` tried at one start position:
the literal `reason="`, then a non-empty run of non-quote characters, then a
closing quote. Returns the captured group. -/
def matchReasonAt (s : List Char) : Option (List Char) :=
  if "reason=\"".data.isPrefixOf s then
    let rest := s.drop 8
    let cap := rest.takeWhile (fun c => c ≠ '"')
    if 0 < cap.length ∧ cap.length < rest.length then some cap else none
  else none

/-- Model of `message.match(/reason="([^"]+)"/)`: the match at the leftmost
start position where the pattern succeeds (the regex engine scans start
positions left to right). -/
def findReason : List Char → Option (List Char)
  | [] => none
  | c :: t =>
    match matchReasonAt (c :: t) with
    | some cap => some cap
    | none => findReason t

/-- Embedding of `parseWeb3Error` (src/lib/utils/errors.ts lines 40-105),
transcribed branch by branch: falsy input, string input, `Error` input with
the ordered substring cascade over the lower-cased message, and any other
input. -/
def parseWeb3Error : ErrValue → String
  | ErrValue.nullish => "An unknown error occurred"
  | ErrValue.str s => s
  | ErrValue.err message =>
    let m := jsToLower message
    if strContains m "user rejected" || strContains m "user denied" ||
        strContains m "user cancelled" then
      "Transaction was rejected by user"
    else if strContains m "insufficient funds" || strContains m "insufficient balance" then
      "Insufficient funds for this transaction"
    else if strContains m "network" || strContains m "timeout" || strContains m "fetch" then
      "Network error. Please check your connection and try again"
    else if strContains m "revert" || strContains m "execution reverted" then
      match findReason m.data with
      | some cap => "Contract error: " ++ String.mk cap
      | none => "Transaction reverted. Please check contract conditions"
    else if strContains m "gas" then
      "Transaction may fail or exceed gas limit. Try adjusting gas settings"
    else if strContains m "invalid address" then
      "Invalid address provided"
    else if strContains m "nonce" then
      "Transaction nonce error. Please try again"
    else
      message
  | ErrValue.other => "An unexpected error occurred"

/-- The revert sentence of the classifier: extract a quoted `reason="..."`
substring from the (already lower-cased) message and include it, else a
generic revert sentence. -/
def revertSentence (m : String) : String :=
  match findReason m.data with
  | some cap => "Contract error: " ++ String.mk cap
  | none => "Transaction reverted. Please check contract conditions"

/-- The fixed, ordered rule table of spec §4.2: each rule is a set of
substrings together with the sentence produced from the lower-cased message
when one of the substrings occurs. -/
def specRules : List (List String × (String → String)) :=
  [ (["user rejected", "user denied", "user cancelled"],
      fun _ => "Transaction was rejected by user"),
    (["insufficient funds", "insufficient balance"],
      fun _ => "Insufficient funds for this transaction"),
    (["network", "timeout", "fetch"],
      fun _ => "Network error. Please check your connection and try again"),
    (["revert", "execution reverted"], revertSentence),
    (["gas"],
      fun _ => "Transaction may fail or exceed gas limit. Try adjusting gas settings"),
    (["invalid address"],
      fun _ => "Invalid address provided"),
    (["nonce"],
      fun _ => "Transaction nonce error. Please try again") ]

/-- Classifier as described by spec §4.2: lower-case the failure's message and
test, in the fixed priority order, whether it contains any of the rule's
substrings; the first matching rule wins; if none match the original message
is returned verbatim; a string input is returned as is, and an input without a
message that is not a string yields a generic sentence. -/
def specClassifier : ErrValue → String
  | ErrValue.nullish => "An unknown error occurred"
  | ErrValue.str s => s
  | ErrValue.err message =>
    let m := jsToLower message
    match specRules.findSome?
        (fun r => if r.1.any (fun p => strContains m p) then some (r.2 m) else none) with
    | some out => out
    | none => message
  | ErrValue.other => "An unexpected error occurred"

/-! ## Persisted wallet store (`src/store/walletStore.ts`) -/

/-- State of the zustand store `useWalletStore` (src/store/walletStore.ts):
the persisted `LastConnected` snapshot. Each field is `undefined` (`none`) in
the initial state. -/
structure WalletStore where
  lastConnectedAddress : Option String
  lastConnectedChainId : Option Nat
  preferredConnector : Option String
deriving DecidableEq

/-- Initial store state: all three fields `undefined`. -/
def initialWalletStore : WalletStore :=
  { lastConnectedAddress := none
    lastConnectedChainId := none
    preferredConnector := none }

/-- Embedding of the `setLastConnected` action: sets all three fields. -/
def setLastConnected (address : String) (chainId : Nat) (connector : String)
    (_s : WalletStore) : WalletStore :=
  { lastConnectedAddress := some address
    lastConnectedChainId := some chainId
    preferredConnector := some connector }

/-- Embedding of the `clearLastConnected` action: clears all three fields. -/
def clearLastConnected (_s : WalletStore) : WalletStore :=
  { lastConnectedAddress := none
    lastConnectedChainId := none
    preferredConnector := none }

/-- The two store actions exposed by `useWalletStore`; they are the only
operations of the store interface that modify its state. -/
inductive WalletAction where
  | setLC (address : String) (chainId : Nat) (connector : String) : WalletAction
  | clearLC : WalletAction

/-- Apply one store action. -/
def applyAction (s : WalletStore) : WalletAction → WalletStore
  | WalletAction.setLC a c k => setLastConnected a c k s
  | WalletAction.clearLC => clearLastConnected s

/-- Run a sequence of store actions from a starting state. -/
def runActions (s : WalletStore) (acts : List WalletAction) : WalletStore :=
  acts.foldl applyAction s

/-- All-or-none shape of the snapshot: the three fields are either all present
or all absent. -/
def allOrNone (s : WalletStore) : Prop :=
  (s.lastConnectedAddress.isSome = true ∧ s.lastConnectedChainId.isSome = true ∧
      s.preferredConnector.isSome = true) ∨
  (s.lastConnectedAddress = none ∧ s.lastConnectedChainId = none ∧
      s.preferredConnector = none)

/-! ## Wallet-session accessor (`src/hooks/web3/useWallet.ts`) -/

/-- Embedding of `useWallet().disconnect` (src/hooks/web3/useWallet.ts):
the body is the statement sequence `wagmiDisconnect(); clearLastConnected()`.
`wagmiDisconnect` is the fire-and-forget mutation returned by wagmi's
`useDisconnect`: it returns `undefined` immediately, performs the session
teardown asynchronously, and surfaces no failure to this caller, so
`clearLastConnected()` runs unconditionally. The eventual outcome of the
asynchronous teardown is passed in as `teardownSucceeds` to make explicit that
no data flows from it into the store update. -/
def disconnect (teardownSucceeds : Bool) (s : WalletStore) : WalletStore :=
  let _ := teardownSucceeds
  clearLastConnected s

/-- The error taxonomy of `Web3ErrorType` (src/lib/utils/errors.ts lines
10-18). Note that the enum has no `UNSUPPORTED_OPERATION` member. -/
inductive Web3ErrorType where
  | USER_REJECTED
  | INSUFFICIENT_FUNDS
  | NETWORK_ERROR
  | CONTRACT_ERROR
  | INVALID_ADDRESS
  | TRANSACTION_FAILED
  | UNKNOWN_ERROR
deriving DecidableEq

/-- A value thrown by the code: either a plain generic `Error` carrying only a
message (`new Error(message)`), or a `Web3Error` instance carrying a distinct
`Web3ErrorType` tag (the only typed error class the repository defines). -/
inductive ThrownValue where
  | plainError (message : String) : ThrownValue
  | web3Error (t : Web3ErrorType) (message : String) : ThrownValue
deriving DecidableEq

/-- True when a thrown value is a typed `Web3Error`, i.e. a condition
distinguishable from a generic `Error` by more than its message text. -/
def isDistinctCondition : ThrownValue → Bool
  | ThrownValue.plainError _ => false
  | ThrownValue.web3Error _ _ => true

/-- Embedding of `useWallet().switchNetwork` (src/hooks/web3/useWallet.ts):
when `switchChainAsync` is available the call is delegated to the chain client
and its failure, if any, is rethrown unchanged by the catch block; otherwise
the code throws `new Error('Chain switching not supported by current
connector')` — a plain generic `Error`. `clientResult` is the outcome of the
delegated `switchChainAsync` call. -/
def switchNetwork (hasSwitchChainAsync : Bool) (clientResult : Except ThrownValue Unit)
    (_targetChainId : Nat) : Except ThrownValue Unit :=
  if hasSwitchChainAsync then clientResult
  else Except.error (ThrownValue.plainError "Chain switching not supported by current connector")

/-! ## Gas price estimates (`src/hooks/web3/useGasPrice.ts`) -/

/-- Result shape of `useGasPrices`. -/
structure GasPrices where
  slow : Nat
  standard : Nat
  fast : Nat
  baseFee : Option Nat
deriving DecidableEq

/-- Embedding of `useGasPrices` (src/hooks/web3/useGasPrice.ts): when
`!gasPrice` (the price is `undefined` or zero) all three estimates are `0n`
and no base fee is attached; otherwise `slow = gasPrice * 80n / 100n`,
`standard = gasPrice`, `fast = gasPrice * 120n / 100n` (bigint division
truncates) with `baseFee = baseFeePerGas`. -/
def useGasPrices (gasPrice : Option Nat) (baseFeePerGas : Option Nat) : GasPrices :=
  match gasPrice with
  | none => { slow := 0, standard := 0, fast := 0, baseFee := none }
  | some g =>
    if g = 0 then { slow := 0, standard := 0, fast := 0, baseFee := none }
    else { slow := g * 80 / 100, standard := g, fast := g * 120 / 100, baseFee := baseFeePerGas }

/-! ## Transaction-lifecycle toast traces (`src/hooks/web3/useContractWrite.ts`) -/

/-- Kind of a sonner toast call. -/
inductive ToastKind where
  | success
  | error
  | loading
deriving DecidableEq

/-- One toast notification as the code shows it: kind, title message, optional
description, and the optional explicit toast id (the key used for dismissal
and replacement). -/
structure ToastNotice where
  kind : ToastKind
  message : String
  description : Option String
  id : Option String
deriving DecidableEq

/-- One observable operation against the notification boundary. -/
inductive ToastOp where
  | show (n : ToastNotice) : ToastOp
  | dismiss (id : String) : ToastOp
deriving DecidableEq

/-- Events driving a single transaction attempt through a lifecycle hook:
submission succeeded with a hash, submission failed, inclusion succeeded,
inclusion failed. -/
inductive TxEvent where
  | submitOk (h : String) : TxEvent
  | submitFail (e : ErrValue) : TxEvent
  | confirmOk : TxEvent
  | confirmFail (e : ErrValue) : TxEvent

/-- The submitted notification of `useContractWrite`:
`toast.success('Transaction submitted!')` — an unkeyed success toast. -/
def cwSubmittedNotice : ToastNotice :=
  { kind := ToastKind.success, message := "Transaction submitted!",
    description := none, id := none }

/-- The terminal confirmed notification of `useContractWrite`:
`toast.success('Transaction Confirmed!', { description: ... })` — unkeyed. -/
def cwConfirmedNotice (h : String) : ToastNotice :=
  { kind := ToastKind.success, message := "Transaction Confirmed!",
    description := some ("Hash: " ++ jsSliceFirst h 10 ++ "..." ++ jsSliceLast h 8),
    id := none }

/-- The submission-failure notification of `useContractWrite`:
`toast.error(parseWeb3Error(error))` — unkeyed. -/
def cwSubmitFailNotice (e : ErrValue) : ToastNotice :=
  { kind := ToastKind.error, message := parseWeb3Error e, description := none, id := none }

/-- The terminal failure notification of `useContractWrite`:
`toast.error('Transaction Failed', { description: parseWeb3Error(...) })`. -/
def cwConfirmFailNotice (e : ErrValue) : ToastNotice :=
  { kind := ToastKind.error, message := "Transaction Failed",
    description := some (parseWeb3Error e), id := none }

/-- Toast operations `useContractWrite` performs for one event, given the
`txHash` state: transcribed from the `write` callback and the two effects on
`isConfirmed` / `confirmError` (src/hooks/web3/useContractWrite.ts lines
45-99). -/
def cwHandle (txHash : Option String) : TxEvent → Option String × List ToastOp
  | TxEvent.submitOk h => (some h, [ToastOp.show cwSubmittedNotice])
  | TxEvent.submitFail e => (txHash, [ToastOp.show (cwSubmitFailNotice e)])
  | TxEvent.confirmOk =>
    match txHash with
    | some h => (some h, [ToastOp.dismiss h, ToastOp.show (cwConfirmedNotice h)])
    | none => (none, [])
  | TxEvent.confirmFail e =>
    match txHash with
    | some h => (some h, [ToastOp.dismiss h, ToastOp.show (cwConfirmFailNotice e)])
    | none => (none, [])

/-- Run `useContractWrite` over a sequence of lifecycle events, collecting the
toast operations in order. -/
def cwRun (txHash : Option String) : List TxEvent → List ToastOp
  | [] => []
  | ev :: rest =>
    let out := cwHandle txHash ev
    out.2 ++ cwRun out.1 rest

/-- Toast trace of a `useContractWrite` attempt whose submission and inclusion
both succeed. -/
def cwSuccessTrace (h : String) : List ToastOp :=
  cwRun none [TxEvent.submitOk h, TxEvent.confirmOk]

/-- The submitted notification of `useSendTransaction`:
`toast.loading('Transaction Submitted', { description: ..., id: hash })` —
a loading toast keyed by the transaction hash. -/
def stSubmittedNotice (h : String) : ToastNotice :=
  { kind := ToastKind.loading, message := "Transaction Submitted",
    description := some "Waiting for confirmation...", id := some h }

/-- The terminal confirmed notification of `useSendTransaction`:
`toast.success('Transfer Successful!', { description: ... })` — unkeyed. -/
def stConfirmedNotice (h : String) : ToastNotice :=
  { kind := ToastKind.success, message := "Transfer Successful!",
    description := some ("Transaction confirmed: " ++ jsSliceFirst h 10 ++ "..." ++
      jsSliceLast h 8),
    id := none }

/-- The submission-failure notification of `useSendTransaction`:
`toast.error('Transaction Rejected', { description: parseWeb3Error(...) })`. -/
def stSubmitFailNotice (e : ErrValue) : ToastNotice :=
  { kind := ToastKind.error, message := "Transaction Rejected",
    description := some (parseWeb3Error e), id := none }

/-- The terminal failure notification of `useSendTransaction`:
`toast.error('Transfer Failed', { description: parseWeb3Error(...) })`. -/
def stConfirmFailNotice (e : ErrValue) : ToastNotice :=
  { kind := ToastKind.error, message := "Transfer Failed",
    description := some (parseWeb3Error e), id := none }

/-- Toast operations `useSendTransaction` performs for one event (transcribed
from src/hooks/web3/useContractWrite.ts lines 225-272). -/
def stHandle (txHash : Option String) : TxEvent → Option String × List ToastOp
  | TxEvent.submitOk h => (some h, [ToastOp.show (stSubmittedNotice h)])
  | TxEvent.submitFail e => (txHash, [ToastOp.show (stSubmitFailNotice e)])
  | TxEvent.confirmOk =>
    match txHash with
    | some h => (some h, [ToastOp.dismiss h, ToastOp.show (stConfirmedNotice h)])
    | none => (none, [])
  | TxEvent.confirmFail e =>
    match txHash with
    | some h => (some h, [ToastOp.dismiss h, ToastOp.show (stConfirmFailNotice e)])
    | none => (none, [])

/-- Run `useSendTransaction` over a sequence of lifecycle events. -/
def stRun (txHash : Option String) : List TxEvent → List ToastOp
  | [] => []
  | ev :: rest =>
    let out := stHandle txHash ev
    out.2 ++ stRun out.1 rest

/-- Toast trace of a `useSendTransaction` attempt whose submission and
inclusion both succeed. -/
def stSuccessTrace (h : String) : List ToastOp :=
  stRun none [TxEvent.submitOk h, TxEvent.confirmOk]

/-- The notices shown along a trace, in order. -/
def noticesOf (tr : List ToastOp) : List ToastNotice :=
  tr.filterMap (fun op =>
    match op with
    | ToastOp.show n => some n
    | ToastOp.dismiss _ => none)

/-! ## Theorems -/

/-- Helper: every store action yields a state whose three fields are all
present or all absent. -/
theorem allOrNone_applyAction (s : WalletStore) (a : WalletAction) :
    allOrNone (applyAction s a) := by
  cases a with
  | setLC addr c k => exact Or.inl ⟨rfl, rfl, rfl⟩
  | clearLC => exact Or.inr ⟨rfl, rfl, rfl⟩

/-- Helper: the all-or-none shape is preserved by any sequence of actions. -/
theorem allOrNone_runActions (s : WalletStore) (hs : allOrNone s)
    (acts : List WalletAction) : allOrNone (runActions s acts) := by
  induction acts generalizing s with
  | nil => exact hs
  | cons a rest ih => exact ih (applyAction s a) (allOrNone_applyAction s a)

/-- Claim C10: the persisted wallet store keeps the invariant that its three
fields are all present or all absent: the initial state has all three absent,
`setLastConnected` sets all three, `clearLastConnected` clears all three, and
these actions are the only operations of the store (the `WalletAction` type
lists the store's entire action interface), so every reachable state
satisfies the invariant. -/
theorem walletStore_allOrNone_invariant (acts : List WalletAction) :
    allOrNone (runActions initialWalletStore acts) ∧
    allOrNone initialWalletStore ∧
    (∀ s a c k, allOrNone (setLastConnected a c k s)) ∧
    (∀ s, allOrNone (clearLastConnected s)) := by
  refine ⟨?_, Or.inr ⟨rfl, rfl, rfl⟩, ?_, ?_⟩
  · exact allOrNone_runActions initialWalletStore (Or.inr ⟨rfl, rfl, rfl⟩) acts
  · intro s a c k
    exact Or.inl ⟨rfl, rfl, rfl⟩
  · intro s
    exact Or.inr ⟨rfl, rfl, rfl⟩

/-- A store state holding a persisted snapshot, used as the concrete
counterexample input for claim C1. -/
def demoStore : WalletStore :=
  { lastConnectedAddress := some "0x1234567890123456789012345678901234567890"
    lastConnectedChainId := some 1
    preferredConnector := some "injected" }

/-- Claim C1, counterexample: with a persisted snapshot present and a session
teardown that fails (`teardownSucceeds = false`), `disconnect` still clears
the snapshot — the snapshot does not remain intact, refuting
clear-on-confirmed-disconnect. -/
theorem disconnect_clears_despite_failed_teardown :
    (disconnect false demoStore).lastConnectedAddress = none ∧
    demoStore.lastConnectedAddress =
      some "0x1234567890123456789012345678901234567890" ∧
    disconnect false demoStore ≠ demoStore := by
  refine ⟨rfl, rfl, ?_⟩
  decide

/-- Claim C1, amended: `disconnect` fires the session teardown and then clears
the persisted `LastConnected` snapshot unconditionally — the resulting store
is the cleared store regardless of whether the teardown succeeds
(clear-then-disconnect, not clear-on-confirmed-disconnect). -/
theorem disconnect_always_clears (teardownSucceeds : Bool) (s : WalletStore) :
    disconnect teardownSucceeds s = initialWalletStore := rfl

/-- Claim C5, counterexample: when the connector offers no switching function,
`switchNetwork` fails with a plain generic `Error` (message text only), not a
condition distinguishable from a generic error; indeed the repository's
`Web3ErrorType` taxonomy has no `UnsupportedOperation` member at all. -/
theorem switchNetwork_unsupported_is_generic_error :
    switchNetwork false (Except.ok ()) 5 =
      Except.error
        (ThrownValue.plainError "Chain switching not supported by current connector") ∧
    isDistinctCondition
      (ThrownValue.plainError "Chain switching not supported by current connector") =
      false := ⟨rfl, rfl⟩

/-- Claim C5, amended: when programmatic switching is unavailable,
`switchNetwork` fails by throwing the plain generic
`Error('Chain switching not supported by current connector')`, distinguishable
only by its message text; when switching is available the chain client's
outcome (including its failures) is passed through unchanged. -/
theorem switchNetwork_spec (clientResult : Except ThrownValue Unit) (target : Nat) :
    switchNetwork false clientResult target =
      Except.error
        (ThrownValue.plainError "Chain switching not supported by current connector") ∧
    switchNetwork true clientResult target = clientResult := ⟨rfl, rfl⟩

/-- Claim C6: amount parsing is total — whenever the underlying conversion
fails, `parseTokenAmount` returns zero instead of raising — and concretely
`"1.5"` at 18 decimals parses to `1500000000000000000` base units while
`"abc"` parses to `0`. -/
theorem parseTokenAmount_spec :
    (∀ value decimals msg, parseUnits value decimals = Except.error msg →
      parseTokenAmount value decimals = 0) ∧
    parseTokenAmount "1.5" 18 = 1500000000000000000 ∧
    parseTokenAmount "abc" 18 = 0 := by
  refine ⟨?_, by decide, by decide⟩
  intro value decimals msg h
  simp [parseTokenAmount, h]

/-- Claim C6, witness: the failure branch of `parseTokenAmount_spec` at the
concrete input `"abc"`. -/
theorem parseTokenAmount_spec_witness :
    parseTokenAmount "abc" 18 = 0 :=
  parseTokenAmount_spec.1 "abc" 18 "invalid decimal number" rfl

/-- Claim C7: address display shortening returns the empty string on
empty/undefined input, returns the input unchanged when it is shorter than
`startChars + endChars`, and otherwise joins the first `startChars` and last
`endChars` characters with a literal `"..."`; with the defaults (6/4) the
sample address yields `"0x1234...7890"`. (Stated for positive `endChars`;
the code's `slice(-endChars)` would denote the whole string at `endChars = 0`.) -/
theorem formatAddress_spec (a : String) (startChars endChars : Nat)
    (h : 0 < endChars) :
    formatAddress none startChars endChars = "" ∧
    formatAddress (some "") startChars endChars = "" ∧
    (a.length < startChars + endChars → formatAddress (some a) startChars endChars = a) ∧
    (startChars + endChars ≤ a.length →
      formatAddress (some a) startChars endChars =
        String.mk (a.data.take startChars) ++ "..." ++
          String.mk (a.data.drop (a.data.length - endChars))) ∧
    formatAddress (some "0x1234567890123456789012345678901234567890") 6 4 =
      "0x1234...7890" := by
  refine ⟨rfl, rfl, ?_, ?_, by decide⟩
  · intro hlt
    by_cases ha : a.length = 0
    · have : a.data = [] := List.length_eq_zero.mp ha
      cases a with
      | mk l =>
        simp only at this
        subst this
        rfl
    · simp [formatAddress, ha, hlt]
  · intro hge
    have hnz : ¬ a.length = 0 := by
      intro h0
      rw [h0] at hge
      omega
    have hnlt : ¬ a.length < startChars + endChars := by omega
    have he : ¬ endChars = 0 := by omega
    simp [formatAddress, hnz, hnlt, jsSliceFirst, jsSliceLast, he]

/-- Claim C7, witness: `formatAddress_spec` instantiated at the sample address
with the default head/tail lengths 6 and 4. -/
theorem formatAddress_spec_witness :
    formatAddress (some "0x1234567890123456789012345678901234567890") 6 4 =
      "0x1234...7890" :=
  (formatAddress_spec "0x1234567890123456789012345678901234567890" 6 4
    (by decide)).2.2.2.2

/-- Claim C8: address shape validation accepts exactly the strings consisting
of `0x` followed by 40 hexadecimal digits (case-insensitive), and rejects
every string of any other length. -/
theorem isValidAddress_spec (s : String) :
    (isValidAddress s = true ↔
      ∃ rest : List Char, s.data = '0' :: 'x' :: rest ∧ rest.length = 40 ∧
        ∀ c ∈ rest, isHexDigitJS c = true) ∧
    (s.length ≠ 42 → isValidAddress s = false) := by
  constructor
  · cases s with
    | mk l =>
      cases l with
      | nil => simp [isValidAddress]
      | cons c0 l1 =>
        cases l1 with
        | nil => simp [isValidAddress]
        | cons c1 rest =>
          simp only [isValidAddress, Bool.and_eq_true, beq_iff_eq, List.all_eq_true]
          constructor
          · rintro ⟨⟨⟨rfl, rfl⟩, h40⟩, hall⟩
            exact ⟨rest, rfl, h40, hall⟩
          · rintro ⟨rest', heq, h40, hall⟩
            obtain ⟨rfl, rfl, rfl⟩ :
                c0 = '0' ∧ c1 = 'x' ∧ rest = rest' := by
              have h0 := congrArg (fun l => l.headD ' ') heq
              have h1 := congrArg (fun l => l.tail.headD ' ') heq
              have h2 := congrArg List.tail (congrArg List.tail heq)
              simp at h0 h1 h2
              exact ⟨h0, h1, h2⟩
            exact ⟨⟨⟨rfl, rfl⟩, h40⟩, hall⟩
  · intro hne
    cases hv : isValidAddress s with
    | false => rfl
    | true =>
      exfalso
      apply hne
      cases s with
      | mk l =>
        cases l with
        | nil => simp [isValidAddress] at hv
        | cons c0 l1 =>
          cases l1 with
          | nil => simp [isValidAddress] at hv
          | cons c1 rest =>
            simp only [isValidAddress, Bool.and_eq_true, beq_iff_eq] at hv
            have h40 := hv.1.2
            show (c0 :: c1 :: rest).length = 42
            simp [h40]

/-- Claim C8, witness: the characterization applied to a valid concrete
address and to a short string. -/
theorem isValidAddress_spec_witness :
    isValidAddress "0x1234567890123456789012345678901234567890" = true ∧
    isValidAddress "0xabc" = false :=
  ⟨(isValidAddress_spec "0x1234567890123456789012345678901234567890").1.mpr
      ⟨"1234567890123456789012345678901234567890".data, by decide, by decide, by decide⟩,
    (isValidAddress_spec "0xabc").2 (by decide)⟩

/-- Claim C9: the gas estimates are 80%, 100% and 120% of the current price
under truncating integer arithmetic, and all three are zero when no current
price is available. -/
theorem useGasPrices_spec (g : Nat) (b : Option Nat) :
    (useGasPrices (some g) b).slow = g * 80 / 100 ∧
    (useGasPrices (some g) b).standard = g ∧
    (useGasPrices (some g) b).fast = g * 120 / 100 ∧
    (useGasPrices none b).slow = 0 ∧
    (useGasPrices none b).standard = 0 ∧
    (useGasPrices none b).fast = 0 := by
  by_cases hg : g = 0 <;> simp [useGasPrices, hg]

/-- The 64-hex-character transaction identifier of the spec's concrete
scenario, used as a counterexample input. -/
def hashAAAA : String :=
  "0xaaaaaaaaaaaaaaaaaaaaaaaaaaaaaaaaaaaaaaaaaaaaaaaaaaaaaaaaaaaaaaaa"

/-- Claim C2, counterexample: on a successful `useContractWrite` attempt the
submitted notification carries no key at all, and on a successful
`useSendTransaction` attempt the terminal confirmed notification carries no
key — so the submitted and terminal notifications are not both keyed by the
transaction identifier, refuting the claim for both cited hooks. -/
theorem txToasts_not_keyed_by_hash :
    ToastOp.show cwSubmittedNotice ∈ cwSuccessTrace hashAAAA ∧
    cwSubmittedNotice.id = none ∧
    ToastOp.show (cwConfirmedNotice hashAAAA) ∈ cwSuccessTrace hashAAAA ∧
    (cwConfirmedNotice hashAAAA).id = none ∧
    ToastOp.show (stConfirmedNotice hashAAAA) ∈ stSuccessTrace hashAAAA ∧
    (stConfirmedNotice hashAAAA).id = none := by
  refine ⟨?_, rfl, ?_, rfl, ?_, rfl⟩ <;>
    simp [cwSuccessTrace, cwRun, cwHandle, stSuccessTrace, stRun, stHandle]

/-- Claim C2, amended: on an attempt whose submission and inclusion both
succeed, each hook emits exactly one submitted and one terminal confirmed
notification, in that order. In `useSendTransaction` the submitted
notification is a loading toast keyed by the transaction hash and a dismissal
of that key happens before the terminal notification is shown, but the
terminal notification itself is unkeyed; in `useContractWrite` neither
notification is keyed — the dismissal that precedes the terminal notification
targets the hash, which matches no shown toast in either hook's terminal
notification, and in `useContractWrite` does not match the submitted
notification either. -/
theorem txToastTraces_spec (h : String) :
    cwSuccessTrace h =
      [ToastOp.show cwSubmittedNotice, ToastOp.dismiss h,
        ToastOp.show (cwConfirmedNotice h)] ∧
    (noticesOf (cwSuccessTrace h)).countP
      (fun n => n.message == "Transaction submitted!") = 1 ∧
    (noticesOf (cwSuccessTrace h)).countP
      (fun n => n.message == "Transaction Confirmed!") = 1 ∧
    (noticesOf (cwSuccessTrace h)).countP (fun n => n.id.isSome) = 0 ∧
    stSuccessTrace h =
      [ToastOp.show (stSubmittedNotice h), ToastOp.dismiss h,
        ToastOp.show (stConfirmedNotice h)] ∧
    (noticesOf (stSuccessTrace h)).countP
      (fun n => n.message == "Transaction Submitted") = 1 ∧
    (noticesOf (stSuccessTrace h)).countP
      (fun n => n.message == "Transfer Successful!") = 1 ∧
    (stSubmittedNotice h).id = some h ∧
    (stConfirmedNotice h).id = none := by
  refine ⟨rfl, ?_, ?_, ?_, rfl, ?_, ?_, rfl, rfl⟩ <;>
    simp [cwSuccessTrace, cwRun, cwHandle, stSuccessTrace, stRun, stHandle, noticesOf,
      List.countP, List.countP.go, cwSubmittedNotice, cwConfirmedNotice,
      stSubmittedNotice, stConfirmedNotice]

/-- The confirmation-failure message of the spec's concrete scenario. -/
def underflowMsg : String := "execution reverted: reason=\"Counter: underflow\""

/-- Claim C4, counterexample: the classifier lower-cases the whole message
before extracting the quoted revert reason, so the classified message is
`"Contract error: counter: underflow"` — it does not contain the substring
`"Counter: underflow"` in its original casing. -/
theorem revertReason_lowercased :
    parseWeb3Error (ErrValue.err underflowMsg) = "Contract error: counter: underflow" ∧
    strContains (parseWeb3Error (ErrValue.err underflowMsg)) "Counter: underflow" =
      false := by
  constructor <;> decide

/-- Claim C4, amended: for the failure message
`execution reverted: reason="Counter: underflow"` the classifier extracts the
quoted revert reason from the lower-cased message and the classified message
contains the lower-cased reason `counter: underflow`. -/
theorem revertReason_extraction_spec :
    parseWeb3Error (ErrValue.err underflowMsg) = "Contract error: counter: underflow" ∧
    strContains (parseWeb3Error (ErrValue.err underflowMsg)) "counter: underflow" =
      true := by
  constructor <;> decide

/-- Helper: a message containing `"User rejected the request"` contains, after
lower-casing, the first rule's substring `"user rejected"`. -/
theorem toLower_contains_user_rejected {m : String}
    (hm : strContains m "User rejected the request" = true) :
    strContains (jsToLower m) "user rejected" = true := by
  have h1 : containsSub (m.data.map Char.toLower)
      ("User rejected the request".data.map Char.toLower) = true :=
    containsSub_map Char.toLower hm
  have h2 : "User rejected the request".data.map Char.toLower =
      "user rejected".data ++ " the request".data := by decide
  rw [h2] at h1
  exact containsSub_of_append h1

/-- Claim C3: the error classifier coincides, on every input, with the spec's
algorithm — lower-case the message (a string input is returned verbatim and a
message-less non-string input yields a generic sentence), test the fixed
substring rules in the fixed priority order (user rejection, insufficient
funds, network/timeout/fetch, revert, gas, invalid address, nonce), first
match wins, and return the original message verbatim when nothing matches.
In particular any failure whose message contains "User rejected the request"
is classified with the rejection sentence. -/
theorem parseWeb3Error_matches_spec :
    (∀ e, parseWeb3Error e = specClassifier e) ∧
    (∀ m, strContains m "User rejected the request" = true →
      parseWeb3Error (ErrValue.err m) = "Transaction was rejected by user") := by
  constructor
  · intro e
    cases e with
    | nullish => rfl
    | str s => rfl
    | other => rfl
    | err message =>
      simp only [parseWeb3Error, specClassifier, specRules, revertSentence,
        List.findSome?_cons, List.findSome?_nil, List.any_cons, List.any_nil,
        Bool.or_false, Bool.or_assoc]
      repeat first
      | rfl
      | (split <;> simp_all)
  · intro m hm
    have h2 := toLower_contains_user_rejected hm
    simp [parseWeb3Error, h2]

/-- Claim C3, witness: the classification of a concrete MetaMask rejection
message through `parseWeb3Error_matches_spec`. -/
theorem parseWeb3Error_matches_spec_witness :
    parseWeb3Error (ErrValue.err "MetaMask: User rejected the request.") =
      "Transaction was rejected by user" :=
  parseWeb3Error_matches_spec.2 "MetaMask: User rejected the request." (by decide)
